import Mathlib

/-!
Verification of the Neural Clipboard core (src/neural_clipboard.py):
a shallow embedding of the clipboard-watcher producer loop and the
AI-processor consumer loop (retry/backoff, notifications), with theorems
settling the behavioural claims about them.
-/

/-! ## Constants from the source (lines 138-143) -/

/-- Source: `MODEL = "gemini-2.5-flash"` — the single model name used for all
API calls. -/
def MODEL : String := "gemini-2.5-flash"

/-- Source: `MAX_RETRIES = 3` — max attempts when hitting a rate-limit error. -/
def MAX_RETRIES : Nat := 3

/-- Source: `BASE_DELAY = 5` — starting backoff delay in seconds. -/
def BASE_DELAY : Nat := 5

/-! ## Substring matching (Python `needle in haystack` on str) -/

/-- Whether the first character list is a leading segment of the second. -/
def startsWithL : List Char → List Char → Bool
  | [], _ => true
  | _ :: _, [] => false
  | a :: as, b :: bs => a == b && startsWithL as bs

/-- Whether `needle` occurs contiguously inside the second list. -/
def containsSub (needle : List Char) : List Char → Bool
  | [] => startsWithL needle []
  | b :: bs => startsWithL needle (b :: bs) || containsSub needle bs

/-- Python `needle in hay` for strings: contiguous substring test. -/
def strIn (needle hay : String) : Bool := containsSub needle.data hay.data

/-- Source line 232: `"429" in err or "RESOURCE_EXHAUSTED" in err` — the
error classification used by the retry loop. -/
def isRateLimited (err : String) : Bool :=
  strIn "429" err || strIn "RESOURCE_EXHAUSTED" err

/-! ## Watcher loop (source lines 92-132) -/

/-- Result of one `pyperclip.paste()` call: either text, or a
`PyperclipException` (platform clipboard-access failure). -/
inductive ClipRead where
  | ok (s : String)
  | failed
deriving DecidableEq

/-- Source lines 101-108: the read result with the except-handler applied —
a failed read degrades to the empty string. -/
def readText : ClipRead → String
  | ClipRead.ok s => s
  | ClipRead.failed => ""

/-- The watcher thread state: its `last_text` dedup memory and the contents
it has put into `ai_queue` (in order). -/
structure WatcherState where
  last_text : String
  queue : List String
deriving DecidableEq

/-- One iteration of `watcher_loop` (source lines 98-129): read the
clipboard (failures become ""), and when the text is non-empty and differs
from `last_text`, either drop it (privacy set) or enqueue it, updating
`last_text` in both cases. `privacy` is the value of
`privacy_event.is_set()` at this iteration. -/
def watcherStep (st : WatcherState) (r : ClipRead) (privacy : Bool) : WatcherState :=
  if readText r ≠ "" ∧ readText r ≠ st.last_text then
    if privacy then { st with last_text := readText r }
    else { last_text := readText r, queue := st.queue ++ [readText r] }
  else st

/-- The watcher loop over a finite schedule of polls, each carrying the
clipboard read outcome and the privacy flag at that instant; the loop
starts with `last_text = ""` and an empty queue. -/
def watcherRun (polls : List (ClipRead × Bool)) : WatcherState :=
  polls.foldl (fun st p => watcherStep st p.1 p.2) { last_text := "", queue := [] }

/-- The most recently observed non-empty clipboard value over a schedule
(empty-string default when none was observed). -/
def lastNonEmptyObs (polls : List (ClipRead × Bool)) : String :=
  polls.foldl (fun acc p => if readText p.1 ≠ "" then readText p.1 else acc) ""

/-! ## AI processor (source lines 148-266) -/

/-- Outcome of one `_try_generate` call (source lines 148-160): the stripped
response text, or the error string `str(e)`. -/
inductive CallResult where
  | ok (text : String)
  | err (msg : String)
deriving DecidableEq

/-- A desktop notification emitted by the processor: the success toast
(source lines 219-224, message truncated to 256 chars) or the fixed
failure toast (source lines 252-257). -/
inductive Notification where
  | successNote (msg : String)
  | failureNote
deriving DecidableEq

/-- Observable trace of processing one dequeued snippet: number of
`generate_content` calls made, the model name passed to each, the backoff
waits entered (in seconds), whether a call succeeded, whether shutdown was
observed at a post-wait check, and the notifications emitted. -/
structure SnippetTrace where
  attempts : Nat
  calls : List String
  waits : List Nat
  success : Bool
  sawShutdown : Bool
  notes : List Notification
deriving DecidableEq

/-- The retry loop body (source lines 207-245), from a given attempt number
with `fuel` loop iterations remaining. `oracle n` is what `_try_generate`
returns on attempt `n`; `sched n` is the value of
`shutdown_event.is_set()` at the check following attempt `n`'s backoff
wait. On success: notify and break. On a rate-limited error (string
containing 429/RESOURCE_EXHAUSTED): wait `BASE_DELAY * 2^(attempt-1)`,
break if shutdown fired, else continue. On any other error: break. -/
def retryAux (oracle : Nat → CallResult) (sched : Nat → Bool) (attempt : Nat) :
    Nat → SnippetTrace
  | 0 =>
      { attempts := 0, calls := [], waits := [], success := false,
        sawShutdown := false, notes := [] }
  | fuel + 1 =>
      match oracle attempt with
      | CallResult.ok text =>
          { attempts := 1, calls := [ MODEL], waits := [], success := true,
            sawShutdown := false, notes := [Notification.successNote (text.take 256)] }
      | CallResult.err msg =>
          if isRateLimited msg then
            if sched attempt then
              { attempts := 1, calls := [ MODEL],
                waits := [BASE_DELAY * 2 ^ (attempt - 1)], success := false,
                sawShutdown := true, notes := [] }
            else
              let rest := retryAux oracle sched (attempt + 1) fuel
              { attempts := 1 + rest.attempts, calls := MODEL :: rest.calls,
                waits := BASE_DELAY * 2 ^ (attempt - 1) :: rest.waits,
                success := rest.success, sawShutdown := rest.sawShutdown,
                notes := rest.notes }
          else
            { attempts := 1, calls := [ MODEL], waits := [], success := false,
              sawShutdown := false, notes := [] }

/-- The full retry loop for one snippet: `for attempt in range(1, MAX_RETRIES + 1)`. -/
def processSnippet (oracle : Nat → CallResult) (sched : Nat → Bool) : SnippetTrace :=
  retryAux oracle sched 1 MAX_RETRIES

/-- Processing of one snippet including the post-loop check (source lines
249-259): when no attempt succeeded and `shutdown_event.is_set()` is false
at that point (`finalShut`), the failure notification is emitted. -/
def handleSnippet (oracle : Nat → CallResult) (sched : Nat → Bool)
    (finalShut : Bool) : SnippetTrace :=
  let t := processSnippet oracle sched
  if !t.success && !finalShut then
    { t with notes := t.notes ++ [Notification.failureNote] }
  else t

/-- Startup of `ai_processor_loop` (source lines 164-180): proceed to the
main loop only when `GEMINI_API_KEY` is present and truthy (Python
`if not api_key`) and the Gemini client initializes; otherwise log and
return immediately. `apiKey` is `os.getenv("GEMINI_API_KEY")`;
`initOk` is whether `genai.Client(...)` raised. -/
def ai_processor_startup (apiKey : Option String) (initOk : Bool) : Bool :=
  if apiKey.getD "" == "" then false else initOk

/-- The processor over a batch of queued items: when startup fails the
thread returns at once, consuming nothing and emitting nothing; when it
succeeds (and shutdown never fires) it drains the queue, handling each
item with its own attempt oracle and shutdown schedule. Returns the
per-item traces and the items left unconsumed. -/
def processorRun (apiKey : Option String) (initOk : Bool)
    (oracle : Nat → Nat → CallResult) (sched : Nat → Nat → Bool)
    (finalShut : Nat → Bool) (items : List String) :
    List SnippetTrace × List String :=
  if ai_processor_startup apiKey initOk then
    ((List.range items.length).map (fun i => handleSnippet (oracle i) (sched i) (finalShut i)), [])
  else ([], items)

/-! ## Helper lemmas -/

/-- After one watcher iteration, `last_text` is the read text when that text
is non-empty, and is unchanged otherwise — independent of privacy. -/
theorem watcherStep_last_text (st : WatcherState) (r : ClipRead) (priv : Bool) :
    (watcherStep st r priv).last_text =
      if readText r ≠ "" then readText r else st.last_text := by
  unfold watcherStep
  by_cases h1 : readText r = ""
  · simp [h1]
  · by_cases h2 : readText r = st.last_text
    · simp [h1, h2]
    · by_cases hp : priv <;> simp [h1, h2, hp]

/-- Folding the watcher over a schedule tracks the most recently observed
non-empty value, from any aligned starting point. -/
theorem watcherRun_last_text_fold (polls : List (ClipRead × Bool)) :
    ∀ st : WatcherState,
      (polls.foldl (fun s p => watcherStep s p.1 p.2) st).last_text =
        polls.foldl (fun acc p => if readText p.1 ≠ "" then readText p.1 else acc)
          st.last_text := by
  induction polls with
  | nil => intro st; rfl
  | cons p ps ih =>
      intro st
      simp only [List.foldl_cons]
      rw [ih]
      rw [watcherStep_last_text]

/-! ## Claim theorems: watcher -/

/-- C4: one watcher iteration enqueues the read text if and only if that
text is non-empty, differs from `last_text`, and privacy is not set at the
moment of observation; and a read equal to the previously observed value is
never enqueued (identical content across consecutive polls enqueues at most
once until the content changes, since `last_text` is updated to every
observed new value). -/
theorem watcher_enqueue_iff (st : WatcherState) (r : ClipRead) (privacy : Bool) :
    ((watcherStep st r privacy).queue = st.queue ++ [readText r] ↔
      (readText r ≠ "" ∧ readText r ≠ st.last_text ∧ privacy = false)) ∧
    (readText r = st.last_text → (watcherStep st r privacy).queue = st.queue) := by
  constructor
  · unfold watcherStep
    by_cases h1 : readText r = ""
    · simp [h1]
    · by_cases h2 : readText r = st.last_text
      · simp [h1, h2]
      · by_cases hp : privacy <;> simp [h1, h2, hp]
  · intro h
    unfold watcherStep
    simp [h]

/-- Witness for C4: polling identical content ("x" twice in a row, privacy
off) enqueues nothing on the second observation. -/
theorem watcher_enqueue_iff_witness :
    (watcherStep { last_text := "x", queue := ["x"] } (ClipRead.ok "x") false).queue
      = ["x"] :=
  (watcher_enqueue_iff { last_text := "x", queue := ["x"] } (ClipRead.ok "x") false).2 rfl

/-- C5: after any watcher run, `last_text` equals the most recently observed
non-empty clipboard value — whether or not that value was enqueued — and
consequently re-observing that same value later (e.g. content first seen
while privacy was active, re-read after privacy is cleared) never enqueues
it. -/
theorem watcher_last_text_invariant (polls : List (ClipRead × Bool)) (r : ClipRead)
    (privacy : Bool) :
    (watcherRun polls).last_text = lastNonEmptyObs polls ∧
    (readText r = lastNonEmptyObs polls →
      (watcherStep (watcherRun polls) r privacy).queue = (watcherRun polls).queue) := by
  have h1 : (watcherRun polls).last_text = lastNonEmptyObs polls :=
    watcherRun_last_text_fold polls _
  refine ⟨h1, fun hr => ?_⟩
  unfold watcherStep
  rw [h1, ← hr]
  simp

/-- Witness for C5: "secret" is observed with privacy on, then re-observed
with privacy off — the queue stays empty. -/
theorem watcher_last_text_invariant_witness :
    (watcherStep (watcherRun [(ClipRead.ok "secret", true)]) (ClipRead.ok "secret")
        false).queue
      = (watcherRun [(ClipRead.ok "secret", true)]).queue :=
  (watcher_last_text_invariant [(ClipRead.ok "secret", true)] (ClipRead.ok "secret")
    false).2 (by decide)

/-- C9: a watcher iteration whose clipboard read fails with a platform
access error is a no-op — the failure degrades to the empty string, nothing
is enqueued, `last_text` is unchanged, and the (total) step function
returns normally, so the error never aborts the loop. -/
theorem watcher_failed_read_noop (st : WatcherState) (privacy : Bool) :
    watcherStep st ClipRead.failed privacy = st := by
  unfold watcherStep
  simp [readText]

/-! ## Claim theorems: processor retry and backoff -/

/-- C3: when every invocation fails with a transient rate-limit error
(error string containing a 429 / RESOURCE_EXHAUSTED marker) and shutdown is
never requested, the processor makes exactly MAX_RETRIES = 3 attempts on
the model with backoff waits of BASE_DELAY, 2×BASE_DELAY and 4×BASE_DELAY
seconds (5, 10, 20) before abandoning it without success. -/
theorem retry_backoff_exact (oracle : Nat → CallResult)
    (h : ∀ n, ∃ msg, oracle n = CallResult.err msg ∧ isRateLimited msg = true) :
    (processSnippet oracle (fun _ => false)).attempts = MAX_RETRIES ∧
    (processSnippet oracle (fun _ => false)).waits = [5, 10, 20] ∧
    (processSnippet oracle (fun _ => false)).success = false := by
  obtain ⟨m1, e1, r1⟩ := h 1
  obtain ⟨m2, e2, r2⟩ := h 2
  obtain ⟨m3, e3, r3⟩ := h 3
  simp [processSnippet, MAX_RETRIES, retryAux, e1, e2, e3, r1, r2, r3, BASE_DELAY]

/-- Witness for C3 at the always-rate-limited oracle. -/
theorem retry_backoff_exact_witness :
    (processSnippet (fun _ => CallResult.err "429") (fun _ => false)).attempts
        = MAX_RETRIES ∧
    (processSnippet (fun _ => CallResult.err "429") (fun _ => false)).waits
        = [5, 10, 20] ∧
    (processSnippet (fun _ => CallResult.err "429") (fun _ => false)).success
        = false :=
  retry_backoff_exact (fun _ => CallResult.err "429")
    (fun _ => ⟨"429", rfl, by decide⟩)

/-- C6: if shutdown is observed at the check that follows a backoff wait,
the retry loop stops at once — no matter how many retry iterations remain
(`fuel`), the trace ends with that single interrupted wait: no further
call, no further wait, no notification. -/
theorem shutdown_cuts_backoff (oracle : Nat → CallResult) (sched : Nat → Bool)
    (attempt fuel : Nat) (msg : String)
    (ho : oracle attempt = CallResult.err msg) (hr : isRateLimited msg = true)
    (hs : sched attempt = true) :
    retryAux oracle sched attempt (fuel + 1) =
      { attempts := 1, calls := [ MODEL],
        waits := [BASE_DELAY * 2 ^ (attempt - 1)], success := false,
        sawShutdown := true, notes := [] } := by
  simp [retryAux, ho, hr, hs]

/-- Witness for C6: shutdown fires during the very first backoff wait, so a
full run that would otherwise retry three times stops after one attempt. -/
theorem shutdown_cuts_backoff_witness :
    retryAux (fun _ => CallResult.err "429") (fun _ => true) 1 MAX_RETRIES =
      { attempts := 1, calls := [ MODEL], waits := [5], success := false,
        sawShutdown := true, notes := [] } :=
  shutdown_cuts_backoff (fun _ => CallResult.err "429") (fun _ => true) 1 2 "429"
    rfl (by decide) rfl

/-- The retry loop itself emits exactly one success notification when some
call succeeds, and no notification at all when no call succeeds. -/
theorem retryAux_notes (oracle : Nat → CallResult) (sched : Nat → Bool) :
    ∀ fuel attempt,
      ((retryAux oracle sched attempt fuel).success = true →
        ∃ t, (retryAux oracle sched attempt fuel).notes
          = [Notification.successNote t]) ∧
      ((retryAux oracle sched attempt fuel).success = false →
        (retryAux oracle sched attempt fuel).notes = []) := by
  intro fuel
  induction fuel with
  | zero =>
      intro attempt
      exact ⟨fun h => by simp [retryAux] at h, fun _ => rfl⟩
  | succ n ih =>
      intro attempt
      cases ho : oracle attempt with
      | ok t =>
          refine ⟨fun _ => ⟨t.take 256, by simp [retryAux, ho]⟩, fun h => ?_⟩
          simp [retryAux, ho] at h
      | err m =>
          by_cases hr : isRateLimited m
          · by_cases hs : sched attempt
            · refine ⟨fun h => ?_, fun _ => by simp [retryAux, ho, hr, hs]⟩
              simp [retryAux, ho, hr, hs] at h
            · refine ⟨fun h => ?_, fun h => ?_⟩
              · simp only [retryAux, ho, hr, hs] at h ⊢
                simp at h ⊢
                exact (ih (attempt + 1)).1 h
              · simp only [retryAux, ho, hr, hs] at h ⊢
                simp at h ⊢
                exact (ih (attempt + 1)).2 h
          · refine ⟨fun h => ?_, fun _ => by simp [retryAux, ho, hr]⟩
            simp [retryAux, ho, hr] at h

/-- C7: the failure notification (distinct by construction from the success
notification) is emitted for a dequeued snippet if and only if no attempt
succeeded and shutdown is not set at the post-loop check; and intermediate
per-attempt failures emit no notification at all during the retry loop. -/
theorem failure_notification_iff (oracle : Nat → CallResult) (sched : Nat → Bool)
    (finalShut : Bool) :
    (Notification.failureNote ∈ (handleSnippet oracle sched finalShut).notes ↔
      ((processSnippet oracle sched).success = false ∧ finalShut = false)) ∧
    ((processSnippet oracle sched).success = false →
      (processSnippet oracle sched).notes = []) := by
  have hn := retryAux_notes oracle sched MAX_RETRIES 1
  rw [show retryAux oracle sched 1 MAX_RETRIES = processSnippet oracle sched from rfl]
    at hn
  refine ⟨?_, hn.2⟩
  unfold handleSnippet
  by_cases hs : (processSnippet oracle sched).success
  · obtain ⟨t, ht⟩ := hn.1 hs
    simp [hs, ht]
  · rcases Bool.eq_false_or_eq_true finalShut with hf | hf
    · simp [hs, hf, hn.2 (by simp [hs])]
    · simp [hs, hf, hn.2 (by simp [hs])]

/-- Witness for C7: every attempt fails with a non-retriable error and
shutdown never fires, so the failure toast is emitted. -/
theorem failure_notification_iff_witness :
    Notification.failureNote ∈
      (handleSnippet (fun _ => CallResult.err "boom") (fun _ => false) false).notes :=
  (failure_notification_iff (fun _ => CallResult.err "boom") (fun _ => false)
    false).1.mpr ⟨by decide, rfl⟩

/-- C8: when the API credential is absent (or empty, Python truthiness) or
client initialization fails, processor startup reports disabled and the
processor consumes nothing and emits nothing — every item the watcher
enqueued stays in the queue. The embedding is a total function, so the
disabled path returns normally rather than raising. -/
theorem disabled_processor_noop (apiKey : Option String) (initOk : Bool)
    (oracle : Nat → Nat → CallResult) (sched : Nat → Nat → Bool)
    (finalShut : Nat → Bool) (polls : List (ClipRead × Bool))
    (h : apiKey.getD "" = "" ∨ initOk = false) :
    ai_processor_startup apiKey initOk = false ∧
    processorRun apiKey initOk oracle sched finalShut (watcherRun polls).queue =
      ([], (watcherRun polls).queue) := by
  have hs : ai_processor_startup apiKey initOk = false := by
    unfold ai_processor_startup
    rcases h with h | h
    · simp [h]
    · by_cases hk : apiKey.getD "" == "" <;> simp [hk, h]
  exact ⟨hs, by unfold processorRun; simp [hs]⟩

/-- Witness for C8: no key at all, the watcher has enqueued "hi", and the
item remains unconsumed. -/
theorem disabled_processor_noop_witness :
    ai_processor_startup none true = false ∧
    processorRun none true (fun _ _ => CallResult.err "e") (fun _ _ => false)
        (fun _ => false) (watcherRun [(ClipRead.ok "hi", false)]).queue =
      ([], (watcherRun [(ClipRead.ok "hi", false)]).queue) :=
  disabled_processor_noop none true (fun _ _ => CallResult.err "e")
    (fun _ _ => false) (fun _ => false) [(ClipRead.ok "hi", false)] (Or.inl rfl)

/-- C10: when the third (final) attempt also fails with a transient
rate-limit error and shutdown never fires, the full 4×BASE_DELAY = 20s
backoff wait is still performed after that last attempt — the waits are
[5, 10, 20] — and only then is the failure notification emitted. -/
theorem final_backoff_before_failure_note (oracle : Nat → CallResult)
    (h1 : ∃ m, oracle 1 = CallResult.err m ∧ isRateLimited m = true)
    (h2 : ∃ m, oracle 2 = CallResult.err m ∧ isRateLimited m = true)
    (h3 : ∃ m, oracle 3 = CallResult.err m ∧ isRateLimited m = true) :
    (handleSnippet oracle (fun _ => false) false).waits = [5, 10, 20] ∧
    (handleSnippet oracle (fun _ => false) false).notes
      = [Notification.failureNote] := by
  obtain ⟨m1, e1, r1⟩ := h1
  obtain ⟨m2, e2, r2⟩ := h2
  obtain ⟨m3, e3, r3⟩ := h3
  unfold handleSnippet
  simp [processSnippet, MAX_RETRIES, retryAux, e1, e2, e3, r1, r2, r3, BASE_DELAY]

/-- Witness for C10 at the always-rate-limited oracle. -/
theorem final_backoff_before_failure_note_witness :
    (handleSnippet (fun _ => CallResult.err "RESOURCE_EXHAUSTED") (fun _ => false)
        false).waits = [5, 10, 20] ∧
    (handleSnippet (fun _ => CallResult.err "RESOURCE_EXHAUSTED") (fun _ => false)
        false).notes = [Notification.failureNote] :=
  final_backoff_before_failure_note (fun _ => CallResult.err "RESOURCE_EXHAUSTED")
    ⟨"RESOURCE_EXHAUSTED", rfl, by decide⟩ ⟨"RESOURCE_EXHAUSTED", rfl, by decide⟩
    ⟨"RESOURCE_EXHAUSTED", rfl, by decide⟩

/-! ## Claim theorems: single model, no fallback (corrected claims) -/

/-- C1 counterexample: with the remote call failing with a not-found error
(no rate-limit marker) on the first attempt and shutdown never requested,
the processor makes exactly one call in total and it goes to the single
hard-wired model "gemini-2.5-flash"; no other model is ever passed to the
remote call, so no "next model in the list" is attempted — the code builds
no ModelCandidate list and reads no configured override. -/
theorem single_model_no_fallback_counterexample :
    (processSnippet (fun _ => CallResult.err "404 NOT_FOUND: model not found")
        (fun _ => false)).calls = ["gemini-2.5-flash"] ∧
    (processSnippet (fun _ => CallResult.err "404 NOT_FOUND: model not found")
        (fun _ => false)).attempts = 1 := by
  decide

/-- C1 amended: the processor uses the single hard-wired model; when the
first attempt fails with an error carrying no 429/RESOURCE_EXHAUSTED marker
(in particular a not-found error), it makes no further attempt on it —
exactly one remote call, to MODEL, without success. -/
theorem single_model_not_found_one_attempt (oracle : Nat → CallResult)
    (sched : Nat → Bool) (msg : String)
    (ho : oracle 1 = CallResult.err msg) (hr : isRateLimited msg = false) :
    (processSnippet oracle sched).attempts = 1 ∧
    (processSnippet oracle sched).calls = [ MODEL] ∧
    (processSnippet oracle sched).success = false := by
  simp [processSnippet, MAX_RETRIES, retryAux, ho, hr]

/-- Witness for the amended C1 at a concrete not-found error. -/
theorem single_model_not_found_one_attempt_witness :
    (processSnippet (fun _ => CallResult.err "404 NOT_FOUND") (fun _ => false)).attempts
        = 1 ∧
    (processSnippet (fun _ => CallResult.err "404 NOT_FOUND") (fun _ => false)).calls
        = [ MODEL] ∧
    (processSnippet (fun _ => CallResult.err "404 NOT_FOUND") (fun _ => false)).success
        = false :=
  single_model_not_found_one_attempt (fun _ => CallResult.err "404 NOT_FOUND")
    (fun _ => false) "404 NOT_FOUND" rfl (by decide)

/-- C2 counterexample: a zero-quota rate-limit error (a 429 /
RESOURCE_EXHAUSTED message reporting limit 0) is retried like any other
rate-limit error: three attempts with backoff waits of 5, 10 and 20
seconds — the code performs backoff waits and retries instead of
abandoning the model without a wait. -/
theorem zero_quota_retried_counterexample :
    (processSnippet
        (fun _ => CallResult.err "429 RESOURCE_EXHAUSTED: quota exceeded, limit: 0")
        (fun _ => false)).attempts = 3 ∧
    (processSnippet
        (fun _ => CallResult.err "429 RESOURCE_EXHAUSTED: quota exceeded, limit: 0")
        (fun _ => false)).waits = [5, 10, 20] := by
  decide

/-- C2 amended: every remote-call failure whose error carries a 429 or
RESOURCE_EXHAUSTED marker — zero-quota errors included, which the code does
not distinguish — is retried on the same single model with exponential
backoff up to MAX_RETRIES attempts; there is no next model to advance to. -/
theorem rate_limited_always_backoff (msg : String) (hr : isRateLimited msg = true) :
    (processSnippet (fun _ => CallResult.err msg) (fun _ => false)).attempts = 3 ∧
    (processSnippet (fun _ => CallResult.err msg) (fun _ => false)).waits
      = [5, 10, 20] ∧
    (processSnippet (fun _ => CallResult.err msg) (fun _ => false)).calls
      = [ MODEL, MODEL, MODEL] := by
  simp [processSnippet, MAX_RETRIES, retryAux, hr, BASE_DELAY]

/-- Witness for the amended C2 at a concrete zero-quota error message. -/
theorem rate_limited_always_backoff_witness :
    (processSnippet
        (fun _ => CallResult.err "429: quota metric limit 0 exceeded")
        (fun _ => false)).attempts = 3 ∧
    (processSnippet
        (fun _ => CallResult.err "429: quota metric limit 0 exceeded")
        (fun _ => false)).waits = [5, 10, 20] ∧
    (processSnippet
        (fun _ => CallResult.err "429: quota metric limit 0 exceeded")
        (fun _ => false)).calls = [ MODEL, MODEL, MODEL] :=
  rate_limited_always_backoff "429: quota metric limit 0 exceeded" (by decide)
